import Mathlib

/-!
Verification of the conversation backend in `app.py`.

The backend is a thin HTTP service: `POST /conversation/<context>` selects a
system prompt from `SYSTEM_PROMPTS` (falling back to a configured default),
prepends it to the request's message list, filters out tool-role messages,
builds the flat model-argument record from configuration, calls the upstream
completion provider, and formats the provider's reply.

The embedding below models JSON values with an inductive type, Python
exceptions with an error type threaded through `Except`, and the upstream
provider call as an oracle parameter.  Functions keep the names of the Python
functions they embed.
-/

namespace AzureAI

/-- JSON values, as produced by parsing a request body. -/
inductive Json where
  | null : Json
  | bool : Bool → Json
  | num : Int → Json
  | str : String → Json
  | arr : List Json → Json
  | obj : List (String × Json) → Json

/-- Python exceptions that can arise on the request path.
`upstream` carries the optional `status_code` attribute of provider errors
(`hasattr(ex, "status_code")` holds exactly when it is `some`). -/
inductive PyError where
  | attributeError : String → PyError
  | typeError : String → PyError
  | upstream : String → Option Nat → PyError
  | formatError : String → PyError

/-- The message Python's `str(ex)` renders for an exception. -/
def PyError.message : PyError → String
  | .attributeError m => m
  | .typeError m => m
  | .upstream m _ => m
  | .formatError m => m

/-- The `status_code` attribute of an exception, when present
(`hasattr(ex, "status_code")`). -/
def PyError.statusCode : PyError → Option Nat
  | .upstream _ c => c
  | _ => none

/-- Whether a JSON value is an object (a Python dict). -/
def Json.isObj : Json → Bool
  | .obj _ => true
  | _ => false

/-- Key lookup in a JSON object's field list (Python dict indexing;
parsed JSON has unique keys). -/
def jLookup (kvs : List (String × Json)) (k : String) : Option Json :=
  kvs.lookup k

/-- Python `d.get(key, default)`: raises `AttributeError` when the receiver is
not a dict, otherwise returns the value bound to `key` or the default. -/
def pyGetD (j : Json) (k : String) (default : Json) : Except PyError Json :=
  match j with
  | .obj kvs => .ok ((jLookup kvs k).getD default)
  | _ => .error (.attributeError ("object has no attribute get: " ++ k))

/-- Python `d.get(key)` (default `None`). -/
def pyGetN (j : Json) (k : String) : Except PyError Json :=
  pyGetD j k .null

/-- Replace the binding of `k` in an association list, appending when absent
(Python dict item assignment). -/
def setKey (kvs : List (String × Json)) (k : String) (v : Json) :
    List (String × Json) :=
  match kvs with
  | [] => [(k, v)]
  | (k', v') :: rest =>
    if k' = k then (k, v) :: rest else (k', v') :: setKey rest k v

/-- Python `d[key] = value` on a JSON value; dict assignment when the receiver
is an object, identity otherwise (the code only reaches it on dicts). -/
def pySetItem (j : Json) (k : String) (v : Json) : Json :=
  match j with
  | .obj kvs => .obj (setKey kvs k v)
  | _ => j

/-- Python `lst.insert(0, x)`: prepends when the receiver is a list, raises
`AttributeError` otherwise. -/
def pyInsert0 (x : Json) (j : Json) : Except PyError Json :=
  match j with
  | .arr xs => .ok (.arr (x :: xs))
  | _ => .error (.attributeError "object has no attribute insert")

/-- Whether a JSON value equals the Python string `"tool"`
(the comparison `message.get("role") != "tool"`). -/
def isToolRole : Json → Bool
  | .str s => s = "tool"
  | _ => false

/-- The `role` value of a message object (`None` when absent), as a pure
function on objects. -/
def roleOf : Json → Json
  | .obj kvs => (jLookup kvs "role").getD .null
  | _ => .null

/-- Whether a message object carries role `"tool"`. -/
def isToolMessage (m : Json) : Bool :=
  isToolRole (roleOf m)

/-- Relevant Azure OpenAI configuration (`app_settings.azure_openai`).
`system_message` is the optional default prompt; the remaining fields are
opaque pass-through values. -/
structure Config where
  system_message : Option String
  temperature : Json
  max_tokens : Json
  top_p : Json
  stop_sequence : Json
  stream : Json
  model : Json

/-- The flat argument record handed to the completion client
(`prepare_model_args` return value). -/
structure ModelArgs where
  messages : Json
  temperature : Json
  max_tokens : Json
  top_p : Json
  stop : Json
  stream : Json
  model : Json

/-- An HTTP response: status code and JSON body. -/
structure HttpResponse where
  status : Nat
  body : Json

/-- An inbound HTTP request: whether the body is JSON, and the parsed body. -/
structure HttpRequest where
  is_json : Bool
  body : Json

/-- The upstream completion call (`init_openai_client` plus
`chat.completions.with_raw_response.create`): given model arguments, either a
parsed response together with the optional `apim-request-id` header, or a
raised exception. -/
abbrev Upstream : Type :=
  ModelArgs → Except PyError (Json × Option String)

/-- The IT system prompt string from `app.py`. -/
def itPrompt : String :=
  "You are an expert IT assistant. Provide detailed technical guidance and solutions for IT-related queries."

/-- The legal system prompt string from `app.py`. -/
def legalPrompt : String :=
  "You are a professional legal assistant. Provide accurate, concise, and compliant legal advice."

/-- The system prompt table from `app.py`. -/
def SYSTEM_PROMPTS : List (String × String) :=
  [("it", itPrompt), ("legal", legalPrompt)]

/-- Python `SYSTEM_PROMPTS.get(context, app_settings.azure_openai.system_message)`:
the mapped prompt when the context key is known, the configured default
otherwise (`none` models Python `None`). -/
def resolvePrompt (context : String) (cfg : Config) : Option String :=
  match SYSTEM_PROMPTS.lookup context with
  | some s => some s
  | none => cfg.system_message

/-- Python truthiness test `if not system_prompt` on an optional string:
true for `None` and for the empty string. -/
def promptFalsy : Option String → Bool
  | none => true
  | some s => s = ""

/-- The message object inserted by the handler:
`{"role": "system", "content": system_prompt}`. -/
def systemMessage (s : String) : Json :=
  .obj [("role", .str "system"), ("content", .str s)]

/-- The list comprehension in `send_chat_request`: keep the messages whose
`get("role")` is not `"tool"`; raise `AttributeError` at the first element
that is not a dict. -/
def filterMessagesList : List Json → Except PyError (List Json)
  | [] => .ok []
  | m :: rest =>
    match m with
    | .obj kvs =>
      if isToolRole ((jLookup kvs "role").getD .null) then
        filterMessagesList rest
      else
        (filterMessagesList rest).map (fun r => m :: r)
    | _ => .error (.attributeError "object has no attribute get: role")

/-- Iterating `request_body.get("messages", [])` in the comprehension:
a list is filtered element by element; any other value fails
(non-iterables raise `TypeError`; the handler only reaches this point with a
list, since `insert` succeeded). -/
def filterMessages (j : Json) : Except PyError (List Json) :=
  match j with
  | .arr xs => filterMessagesList xs
  | _ => .error (.typeError "object is not iterable over dicts")

/-- Embeds `prepare_model_args`: read `messages` from the request body and
every other field directly from configuration. -/
def prepare_model_args (request_body : Json) (cfg : Config) :
    Except PyError ModelArgs := do
  let messages ← pyGetD request_body "messages" (.arr [])
  pure { messages := messages,
         temperature := cfg.temperature,
         max_tokens := cfg.max_tokens,
         top_p := cfg.top_p,
         stop := cfg.stop_sequence,
         stream := cfg.stream,
         model := cfg.model }

/-- Embeds `send_chat_request`: filter out tool-role messages, store the
filtered list back into the request body, build the model arguments and call
the upstream provider. -/
def send_chat_request (upstream : Upstream) (cfg : Config)
    (request_body : Json) : Except PyError (Json × Option String) := do
  let raw ← pyGetD request_body "messages" (.arr [])
  let filtered ← filterMessages raw
  let request_body := pySetItem request_body "messages" (.arr filtered)
  let model_args ← prepare_model_args request_body cfg
  upstream model_args

/-- Modelled from the spec: `format_non_streaming_response` is imported from
`backend.utils`, which is not under `src/`.  Per the spec it maps the raw
completion response, the history metadata and the request identifier to the
Formatted Reply shape
`(id, model, created, object, choices: [(messages: [...])], history_metadata)`,
substituting an empty string for an absent `id` or `model`, while a failure to
extract the first choice's message is fatal and reported as a format error. -/
def format_non_streaming_response (response : Json) (history_metadata : Json)
    (_apim_request_id : Option String) : Except PyError Json :=
  match response with
  | .obj kvs =>
    match jLookup kvs "choices" with
    | some (.arr (c :: _)) =>
      match c with
      | .obj ckvs =>
        match jLookup ckvs "message" with
        | some msg =>
          .ok (.obj
            [("id", (jLookup kvs "id").getD (.str "")),
             ("model", (jLookup kvs "model").getD (.str "")),
             ("created", (jLookup kvs "created").getD (.str "")),
             ("object", (jLookup kvs "object").getD (.str "")),
             ("choices", .arr [.obj [("messages", .arr [msg])]]),
             ("history_metadata", history_metadata)])
        | none => .error (.formatError "choice has no message")
      | _ => .error (.formatError "choice is not an object")
    | _ => .error (.formatError "response has no choices")
  | _ => .error (.formatError "response is not an object")

/-- The body of the `try` block in `conversation_internal`: send the chat
request, read back the history metadata, format the reply. -/
def conversation_try (upstream : Upstream) (cfg : Config)
    (request_body : Json) : Except PyError Json := do
  let ra ← send_chat_request upstream cfg request_body
  let history_metadata ← pyGetD request_body "history_metadata" (.obj [])
  format_non_streaming_response ra.1 history_metadata ra.2

/-- Embeds `conversation_internal`: every exception from the try block is
converted to a JSON error body, with the exception's `status_code` when it has
one and 500 otherwise. -/
def conversation_internal (upstream : Upstream) (cfg : Config)
    (request_body : Json) : HttpResponse :=
  match conversation_try upstream cfg request_body with
  | .ok j => ⟨200, j⟩
  | .error e =>
    ⟨e.statusCode.getD 500, .obj [("error", .str e.message)]⟩

/-- Embeds the `conversation` route handler.  A non-JSON body is rejected with
415; a context with no usable prompt with 400; otherwise the system prompt is
inserted at the head of the message list and the request is handed to
`conversation_internal`.  An `Except.error` result is an exception escaping
the handler uncaught. -/
def conversation (upstream : Upstream) (cfg : Config) (req : HttpRequest)
    (context : String) : Except PyError HttpResponse :=
  if ¬ req.is_json then
    .ok ⟨415, .obj [("error", .str "request must be JSON")]⟩
  else
    let system_prompt := resolvePrompt context cfg
    if promptFalsy system_prompt then
      .ok ⟨400, .obj [("error",
        .str ("Unsupported context \x27" ++ context ++ "\x27"))]⟩
    else do
      let messages ← pyGetD req.body "messages" (.arr [])
      let messages ← pyInsert0 (systemMessage (system_prompt.getD "")) messages
      let request_json := pySetItem req.body "messages" messages
      .ok (conversation_internal upstream cfg request_json)

/-- State owned by app startup: the readiness event `cosmos_db_ready` and the
stored client reference `app.cosmos_conversation_client`
(`none` models Python `None`; the inner option is the client reference,
which `init_cosmosdb_client` legitimately returns as `None` when chat history
is disabled). -/
structure InitState where
  cosmos_db_ready : Bool
  cosmos_conversation_client : Option (Option Json)

/-- Embeds the `init` hook of `create_app`: attempt the CosmosDB client
construction (`ctor` is the awaited outcome of `init_cosmosdb_client`); on
success store the client and set the readiness event, on failure store `None`,
leave the event unset and re-raise. -/
def create_app_init (ctor : Except PyError (Option Json)) :
    InitState × Option PyError :=
  match ctor with
  | .ok c => (⟨true, some c⟩, none)
  | .error e => (⟨false, some none⟩, some e)

/-- The message sequence the normalization is claimed to forward: the selected
system prompt followed by the non-tool request messages in order.  The
theorems below prove that the handler pipeline forwards exactly this list. -/
def normalizedMessages (s : String) (ms : List Json) : List Json :=
  systemMessage s :: ms.filter (fun m => !(isToolMessage m))

/-- A stub upstream provider used to instantiate universally quantified
theorems at concrete inputs. -/
def stubUpstream : Upstream :=
  fun _ => .error (.upstream "stub failure" none)

/-- Example configuration with no default system prompt; the remaining
fields are opaque. -/
def cfgEx : Config :=
  ⟨none, .num 0, .num 800, .num 1, .null, .bool false, .str "gpt"⟩

/-- Example user message. -/
def exUserMsg : Json :=
  .obj [("role", .str "user"), ("content", .str "hello")]

/-- Example tool message. -/
def exToolMsg : Json :=
  .obj [("role", .str "tool"), ("content", .str "lookup result")]

/-- Example message list: one user message followed by one tool message. -/
def exMsgs : List Json :=
  [exUserMsg, exToolMsg]

/-- Example request-body fields holding `exMsgs`. -/
def exKvs : List (String × Json) :=
  [("messages", .arr exMsgs)]

/-- The successful completion response from the spec's example:
`(id: "abc", model: "gpt-x", choices: [(message: (role: "assistant", content: "hi"))])`. -/
def exampleResponse : Json :=
  .obj [("id", .str "abc"), ("model", .str "gpt-x"),
        ("choices", .arr [.obj [("message",
          .obj [("role", .str "assistant"), ("content", .str "hi")])]])]

/-- Example request-body fields holding `exMsgs` and a history-metadata
object `(foo: 1)`. -/
def exKvsHm : List (String × Json) :=
  [("messages", .arr exMsgs), ("history_metadata", .obj [("foo", .num 1)])]

/-- The Formatted Reply produced for `exampleResponse` with the given history
metadata: identifier and model copied, absent `created` and `object` replaced
by empty strings, the first choice's message wrapped in `choices[0].messages`,
and the history metadata echoed. -/
def formattedReply (hmv : Json) : Json :=
  .obj [("id", .str "abc"), ("model", .str "gpt-x"), ("created", .str ""),
        ("object", .str ""),
        ("choices", .arr [.obj [("messages",
          .arr [.obj [("role", .str "assistant"), ("content", .str "hi")]])]]),
        ("history_metadata", hmv)]

/-- A JSON value is an object exactly when it is built by `Json.obj`. -/
lemma isObj_iff (m : Json) : m.isObj = true ↔ ∃ kvs, m = .obj kvs := by
  cases m <;> simp [Json.isObj]

/-- After a dict assignment, looking up the assigned key yields the new
value. -/
lemma jLookup_setKey_self (kvs : List (String × Json)) (k : String) (v : Json) :
    jLookup (setKey kvs k v) k = some v := by
  induction kvs with
  | nil => simp [setKey, jLookup, List.lookup]
  | cons hd tl ih =>
    obtain ⟨k', v'⟩ := hd
    by_cases h : k' = k
    · simp [setKey, h, jLookup, List.lookup]
    · have hbeq : (k == k') = false := beq_eq_false_iff_ne.mpr (Ne.symm h)
      simp only [setKey, if_neg h, jLookup, List.lookup, hbeq] at ih ⊢
      exact ih

/-- On a list of message objects, the tool-message comprehension succeeds and
returns exactly the Boolean filter by non-tool role. -/
lemma filterMessagesList_eq (ms : List Json) (h : ∀ m ∈ ms, m.isObj = true) :
    filterMessagesList ms = .ok (ms.filter (fun m => !(isToolMessage m))) := by
  induction ms with
  | nil => rfl
  | cons m rest ih =>
    have hm : m.isObj = true := h m (List.mem_cons_self _ _)
    have ih' := ih (fun x hx => h x (List.mem_cons_of_mem _ hx))
    obtain ⟨kvs, rfl⟩ := (isObj_iff m).mp hm
    by_cases ht : isToolRole ((jLookup kvs "role").getD .null)
    · simp [filterMessagesList, ht, ih', List.filter_cons, isToolMessage, roleOf,
            Except.map]
    · simp [filterMessagesList, ht, ih', List.filter_cons, isToolMessage, roleOf,
            Except.map]

/-- Unfolding of the `conversation` handler on a JSON object body carrying a
message list, once the context resolves to a usable prompt: the system message
is inserted at the head and the body is handed to `conversation_internal`. -/
lemma conversation_eq (upstream : Upstream) (cfg : Config) (ctx s : String)
    (kvs : List (String × Json)) (ms : List Json)
    (hp : resolvePrompt ctx cfg = some s) (hs : s ≠ "")
    (hm : jLookup kvs "messages" = some (.arr ms)) :
    conversation upstream cfg ⟨true, .obj kvs⟩ ctx =
      .ok (conversation_internal upstream cfg
        (.obj (setKey kvs "messages" (.arr (systemMessage s :: ms))))) := by
  simp [conversation, hp, promptFalsy, hs, pyGetD, hm, pyInsert0, pySetItem,
        Except.bind, bind]

/-- Unfolding of `send_chat_request` on an object body whose messages are a
list of objects: the provider is called once, on the non-tool messages and
the configuration fields. -/
lemma send_chat_request_eq (upstream : Upstream) (cfg : Config)
    (kvs : List (String × Json)) (l : List Json)
    (hm : jLookup kvs "messages" = some (.arr l))
    (hobj : ∀ m ∈ l, m.isObj = true) :
    send_chat_request upstream cfg (.obj kvs) =
      upstream ⟨.arr (l.filter (fun m => !(isToolMessage m))), cfg.temperature,
        cfg.max_tokens, cfg.top_p, cfg.stop_sequence, cfg.stream, cfg.model⟩ := by
  simp [send_chat_request, pyGetD, hm, filterMessages,
        filterMessagesList_eq l hobj, pySetItem, prepare_model_args,
        jLookup_setKey_self, Except.bind, bind, pure, Except.pure]

/-- `conversation_internal` never lets an exception escape: it returns 200 or
a JSON error body. -/
lemma conversation_internal_shape (u : Upstream) (cfg : Config) (rb : Json) :
    (conversation_internal u cfg rb).status = 200 ∨
      ∃ m, (conversation_internal u cfg rb).body = .obj [("error", .str m)] := by
  cases h : conversation_try u cfg rb with
  | ok j => left; simp [conversation_internal, h]
  | error e => right; exact ⟨e.message, by simp [conversation_internal, h]⟩

/-- The inserted system message is an object and does not have role "tool". -/
lemma isToolMessage_systemMessage (s : String) :
    isToolMessage (systemMessage s) = false := rfl

/-- The inserted system message is a JSON object. -/
lemma isObj_systemMessage (s : String) :
    (systemMessage s).isObj = true := rfl

/-- Formatting the spec's example response produces `formattedReply`. -/
lemma format_exampleResponse (hmv : Json) (apim : Option String) :
    format_non_streaming_response exampleResponse hmv apim =
      .ok (formattedReply hmv) := rfl

/-- C1: for every conversation request carrying a message list, the handler
hands `conversation_internal` the body with the system message inserted
first, and `send_chat_request` calls the provider exactly on
`normalizedMessages`: no forwarded message has role "tool", the first
forwarded element is the selected system prompt with role "system", the
forwarded list has exactly N fewer elements than the original list plus one
when the request holds N tool-role messages, and the remaining messages keep
their relative order (they form a sublist of the original list). -/
theorem conversation_normalizes_messages (cfg : Config) (ctx s : String)
    (kvs : List (String × Json)) (ms : List Json)
    (hp : resolvePrompt ctx cfg = some s) (hs : s ≠ "")
    (hm : jLookup kvs "messages" = some (.arr ms))
    (hobj : ∀ m ∈ ms, m.isObj = true) :
    (∀ upstream : Upstream,
      conversation upstream cfg ⟨true, .obj kvs⟩ ctx =
        .ok (conversation_internal upstream cfg
          (.obj (setKey kvs "messages" (.arr (systemMessage s :: ms))))))
    ∧ (∀ upstream : Upstream,
      send_chat_request upstream cfg
          (.obj (setKey kvs "messages" (.arr (systemMessage s :: ms)))) =
        upstream ⟨.arr (normalizedMessages s ms), cfg.temperature,
          cfg.max_tokens, cfg.top_p, cfg.stop_sequence, cfg.stream,
          cfg.model⟩)
    ∧ (∀ m ∈ normalizedMessages s ms, isToolMessage m = false)
    ∧ (normalizedMessages s ms).head? = some (systemMessage s)
    ∧ roleOf (systemMessage s) = .str "system"
    ∧ (normalizedMessages s ms).length
        + ms.countP (fun m => isToolMessage m) = ms.length + 1
    ∧ List.Sublist ((normalizedMessages s ms).drop 1) ms := by
  refine ⟨?_, ?_, ?_, rfl, rfl, ?_, ?_⟩
  · intro upstream
    exact conversation_eq upstream cfg ctx s kvs ms hp hs hm
  · intro upstream
    have hobj' : ∀ m ∈ systemMessage s :: ms, m.isObj = true := by
      intro m hmem
      rcases List.mem_cons.mp hmem with h | h
      · subst h; rfl
      · exact hobj m h
    have h := send_chat_request_eq upstream cfg
      (setKey kvs "messages" (.arr (systemMessage s :: ms)))
      (systemMessage s :: ms) (jLookup_setKey_self kvs _ _) hobj'
    simpa [normalizedMessages, List.filter_cons, isToolMessage_systemMessage]
      using h
  · intro m hmem
    rcases List.mem_cons.mp hmem with h | h
    · subst h; rfl
    · simpa using (List.mem_filter.mp h).2
  · have h1 : (ms.filter (fun m => !(isToolMessage m))).length
        = ms.countP (fun m => !(isToolMessage m)) :=
      (List.countP_eq_length_filter _ _).symm
    have h2 : ms.length = ms.countP (fun m => isToolMessage m)
        + ms.countP (fun m => !(isToolMessage m)) := by
      simpa using List.length_eq_countP_add_countP
        (fun m => isToolMessage m) ms
    simp only [normalizedMessages, List.length_cons, h1]
    omega
  · exact List.filter_sublist ms

/-- Witness for C1 at a concrete request: one user message and one tool
message under context "it". -/
theorem conversation_normalizes_messages_witness :
    (normalizedMessages itPrompt exMsgs).head? = some (systemMessage itPrompt)
    ∧ (normalizedMessages itPrompt exMsgs).length
        + exMsgs.countP (fun m => isToolMessage m) = exMsgs.length + 1 := by
  have h := conversation_normalizes_messages cfgEx "it" itPrompt exKvs exMsgs
    rfl (by decide) rfl
    (by intro m hm; simp [exMsgs] at hm; rcases hm with rfl | rfl <;> rfl)
  exact ⟨h.2.2.2.1, h.2.2.2.2.2.1⟩

/-- C2: context "it" resolves to the fixed IT-assistant prompt, "legal" to
the fixed legal-assistant prompt, any other key to the configured default,
and a JSON request whose context has no mapped prompt and no usable default
is answered with HTTP 400 and an unsupported-context error body. -/
theorem resolvePrompt_spec (cfg : Config) :
    resolvePrompt "it" cfg = some itPrompt
    ∧ resolvePrompt "legal" cfg = some legalPrompt
    ∧ (∀ ctx, ctx ≠ "it" → ctx ≠ "legal" →
        resolvePrompt ctx cfg = cfg.system_message)
    ∧ (∀ (upstream : Upstream) (req : HttpRequest) (ctx : String),
        req.is_json = true →
        SYSTEM_PROMPTS.lookup ctx = none →
        (cfg.system_message = none ∨ cfg.system_message = some "") →
        conversation upstream cfg req ctx =
          .ok ⟨400, .obj [("error",
            .str ("Unsupported context \x27" ++ ctx ++ "\x27"))]⟩) := by
  refine ⟨rfl, rfl, ?_, ?_⟩
  · intro ctx h1 h2
    simp [resolvePrompt, SYSTEM_PROMPTS, List.lookup,
          beq_eq_false_iff_ne.mpr h1, beq_eq_false_iff_ne.mpr h2]
  · intro upstream req ctx hj hctx hdef
    obtain ⟨b, body⟩ := req
    simp only at hj
    subst hj
    have hres : resolvePrompt ctx cfg = cfg.system_message := by
      simp [resolvePrompt, hctx]
    rcases hdef with h | h <;> simp [conversation, hres, h, promptFalsy]

/-- Witness for C2 at a concrete unrecognized context with no configured
default prompt. -/
theorem resolvePrompt_spec_witness :
    conversation stubUpstream cfgEx ⟨true, .obj []⟩ "finance" =
      .ok ⟨400, .obj [("error",
        .str ("Unsupported context \x27" ++ "finance" ++ "\x27"))]⟩ :=
  (resolvePrompt_spec cfgEx).2.2.2 stubUpstream ⟨true, .obj []⟩ "finance"
    rfl rfl (Or.inl rfl)

/-- C3: normalization never alters message content: filtering the message
list with the system message inserted succeeds (on message objects) and every
element of the normalized list is either the inserted system message or one
of the original request messages, passed through verbatim.  The embedding is
purely functional, so the normalized list is built without changing any
caller-visible value. -/
theorem normalization_preserves_content (s : String) (ms : List Json)
    (hobj : ∀ m ∈ ms, m.isObj = true) :
    filterMessagesList (systemMessage s :: ms) = .ok (normalizedMessages s ms)
    ∧ ∀ m ∈ normalizedMessages s ms, m = systemMessage s ∨ m ∈ ms := by
  constructor
  · have hobj' : ∀ m ∈ systemMessage s :: ms, m.isObj = true := by
      intro m hmem
      rcases List.mem_cons.mp hmem with h | h
      · subst h; rfl
      · exact hobj m h
    simpa [normalizedMessages, List.filter_cons, isToolMessage_systemMessage]
      using filterMessagesList_eq _ hobj'
  · intro m hmem
    rcases List.mem_cons.mp hmem with h | h
    · exact Or.inl h
    · exact Or.inr (List.mem_of_mem_filter h)

/-- Witness for C3 at the concrete example messages. -/
theorem normalization_preserves_content_witness :
    filterMessagesList (systemMessage legalPrompt :: exMsgs) =
      .ok (normalizedMessages legalPrompt exMsgs) :=
  (normalization_preserves_content legalPrompt exMsgs
    (by intro m hm; simp [exMsgs] at hm; rcases hm with rfl | rfl <;> rfl)).1

/-- Counterexample to C4: a request whose body is valid JSON but not an
object (here the JSON array `[]`) makes the `conversation` handler raise an
uncaught `AttributeError` at `request_json.get("messages", [])`; the
exception escapes the handler unconverted instead of becoming a JSON error
body. -/
theorem conversation_error_escapes :
    conversation stubUpstream cfgEx ⟨true, .arr []⟩ "it" =
      .error (.attributeError "object has no attribute get: messages") := rfl

/-- C4 (amended): for requests whose JSON body is an object whose "messages"
entry is absent or an array, every per-request error is caught and converted
to a JSON body with an "error" field (415, 400, upstream and format failures
included) and nothing escapes the handler; a JSON body that is not an object
escapes uncaught (see the counterexample). -/
theorem conversation_catches_errors_on_object_bodies (upstream : Upstream)
    (cfg : Config) (ctx : String) (b : Bool) (kvs : List (String × Json))
    (hm : jLookup kvs "messages" = none ∨
      ∃ l, jLookup kvs "messages" = some (.arr l)) :
    ∃ r : HttpResponse,
      conversation upstream cfg ⟨b, .obj kvs⟩ ctx = .ok r ∧
      (r.status = 200 ∨ ∃ msg, r.body = .obj [("error", .str msg)]) := by
  cases b with
  | false =>
    exact ⟨⟨415, .obj [("error", .str "request must be JSON")]⟩, rfl,
      Or.inr ⟨_, rfl⟩⟩
  | true =>
    cases hfalsy : promptFalsy (resolvePrompt ctx cfg) with
    | true =>
      refine ⟨⟨400, .obj [("error",
        .str ("Unsupported context \x27" ++ ctx ++ "\x27"))]⟩, ?_,
        Or.inr ⟨_, rfl⟩⟩
      simp [conversation, hfalsy]
    | false =>
      rcases hm with h | ⟨l, h⟩
      · refine ⟨conversation_internal upstream cfg
          (.obj (setKey kvs "messages"
            (.arr [systemMessage ((resolvePrompt ctx cfg).getD "")]))), ?_,
          conversation_internal_shape _ _ _⟩
        simp [conversation, hfalsy, pyGetD, h, pyInsert0, pySetItem,
              Except.bind, bind]
      · refine ⟨conversation_internal upstream cfg
          (.obj (setKey kvs "messages"
            (.arr (systemMessage ((resolvePrompt ctx cfg).getD "") :: l)))),
          ?_, conversation_internal_shape _ _ _⟩
        simp [conversation, hfalsy, pyGetD, h, pyInsert0, pySetItem,
              Except.bind, bind]

/-- Witness for the amended C4 at a concrete object body whose messages list
is present, under a failing upstream provider. -/
theorem conversation_catches_errors_witness :
    ∃ r : HttpResponse,
      conversation stubUpstream cfgEx ⟨true, .obj exKvs⟩ "legal" = .ok r ∧
      (r.status = 200 ∨ ∃ msg, r.body = .obj [("error", .str msg)]) :=
  conversation_catches_errors_on_object_bodies stubUpstream cfgEx "legal"
    true exKvs (Or.inr ⟨exMsgs, rfl⟩)

/-- C5: when the upstream call raises an error carrying a `status_code`, the
HTTP response uses that status code with an error body; when the raised error
carries none, the response status is 500. -/
theorem upstream_status_code_surfaced (cfg : Config)
    (kvs : List (String × Json)) (ms : List Json) (msg : String) (code : Nat)
    (hm : jLookup kvs "messages" = some (.arr ms))
    (hobj : ∀ m ∈ ms, m.isObj = true) :
    conversation_internal (fun _ => .error (.upstream msg (some code))) cfg
        (.obj kvs) = ⟨code, .obj [("error", .str msg)]⟩
    ∧ conversation_internal (fun _ => .error (.upstream msg none)) cfg
        (.obj kvs) = ⟨500, .obj [("error", .str msg)]⟩ := by
  have h1 := send_chat_request_eq
    (fun _ => .error (.upstream msg (some code))) cfg kvs ms hm hobj
  have h2 := send_chat_request_eq
    (fun _ => .error (.upstream msg none)) cfg kvs ms hm hobj
  constructor <;>
    simp [conversation_internal, conversation_try, h1, h2, Except.bind, bind,
          PyError.statusCode, PyError.message]

/-- Witness for C5: a simulated upstream failure with status code 429 yields
HTTP 429 with an error body, not 500. -/
theorem upstream_status_code_surfaced_witness :
    conversation_internal (fun _ => .error (.upstream "rate limited"
        (some 429))) cfgEx (.obj exKvs) =
      ⟨429, .obj [("error", .str "rate limited")]⟩ :=
  (upstream_status_code_surfaced cfgEx exKvs exMsgs "rate limited" 429 rfl
    (by intro m hm; simp [exMsgs] at hm; rcases hm with rfl | rfl <;> rfl)).1

/-- C6: the outbound model-invocation arguments are exactly the flat record
of the request's message list together with the configuration's temperature,
max_tokens, top_p, stop sequence, stream flag and model name; every field is
a direct copy, none is computed. -/
theorem prepare_model_args_spec (cfg : Config) (kvs : List (String × Json))
    (v : Json) (hm : jLookup kvs "messages" = some v) :
    prepare_model_args (.obj kvs) cfg =
      .ok ⟨v, cfg.temperature, cfg.max_tokens, cfg.top_p, cfg.stop_sequence,
        cfg.stream, cfg.model⟩ := by
  simp [prepare_model_args, pyGetD, hm, Except.bind, bind, pure, Except.pure]

/-- Witness for C6 at the concrete example body and configuration. -/
theorem prepare_model_args_spec_witness :
    prepare_model_args (.obj exKvs) cfgEx =
      .ok ⟨.arr exMsgs, cfgEx.temperature, cfgEx.max_tokens, cfgEx.top_p,
        cfgEx.stop_sequence, cfgEx.stream, cfgEx.model⟩ :=
  prepare_model_args_spec cfgEx exKvs (.arr exMsgs) rfl

/-- C7: when History Store client construction fails during startup, the
readiness signal stays unset, the stored client reference is the explicit
absent value `None`, and the failure is re-raised so startup aborts. -/
theorem create_app_init_failure (e : PyError) :
    create_app_init (.error e) = (⟨false, some none⟩, some e) := rfl

/-- C8: a request whose body is not JSON is answered with HTTP 415 and an
error body, for every upstream provider, configuration, body and context —
so no prompt selection, normalization or upstream call influences the
result. -/
theorem non_json_body_rejected (upstream : Upstream) (cfg : Config)
    (body : Json) (ctx : String) :
    conversation upstream cfg ⟨false, body⟩ ctx =
      .ok ⟨415, .obj [("error", .str "request must be JSON")]⟩ := rfl

/-- C9: the formatter echoes the history metadata unchanged: every
successfully formatted reply carries a `history_metadata` field equal to the
metadata it was given; on the pipeline, a successful upstream call returns
HTTP 200 whose reply body holds the client-supplied metadata (here the
metadata stored under "history_metadata" in the request body), and the empty
object when the client supplied none. -/
theorem history_metadata_echoed (cfg : Config) (kvs : List (String × Json))
    (ms : List Json) (hmv : Json) (apim : Option String)
    (h1 : jLookup kvs "messages" = some (.arr ms))
    (h2 : ∀ m ∈ ms, m.isObj = true) :
    (∀ (response history_metadata : Json) (rid : Option String) (fr : Json),
      format_non_streaming_response response history_metadata rid = .ok fr →
      ∃ fkvs, fr = .obj fkvs ∧
        jLookup fkvs "history_metadata" = some history_metadata)
    ∧ (jLookup kvs "history_metadata" = some hmv →
      conversation_internal (fun _ => .ok (exampleResponse, apim)) cfg
          (.obj kvs) = ⟨200, formattedReply hmv⟩)
    ∧ (jLookup kvs "history_metadata" = none →
      conversation_internal (fun _ => .ok (exampleResponse, apim)) cfg
          (.obj kvs) = ⟨200, formattedReply (.obj [])⟩) := by
  have hsend := send_chat_request_eq (fun _ => .ok (exampleResponse, apim))
    cfg kvs ms h1 h2
  refine ⟨?_, ?_, ?_⟩
  · intro response history_metadata rid fr hfmt
    unfold format_non_streaming_response at hfmt
    repeat' split at hfmt
    all_goals try exact Except.noConfusion hfmt
    injection hfmt with h
    subst h
    exact ⟨_, rfl, rfl⟩
  · intro hh
    simp [conversation_internal, conversation_try, hsend, Except.bind, bind,
          pyGetD, hh, format_exampleResponse]
  · intro hh
    simp [conversation_internal, conversation_try, hsend, Except.bind, bind,
          pyGetD, hh, format_exampleResponse]

/-- Witness for C9: supplying history metadata `(foo: 1)` yields a 200 reply
whose `history_metadata` equals `(foo: 1)`. -/
theorem history_metadata_echoed_witness :
    conversation_internal (fun _ => .ok (exampleResponse, some "rid")) cfgEx
        (.obj exKvsHm) = ⟨200, formattedReply (.obj [("foo", .num 1)])⟩ :=
  (history_metadata_echoed cfgEx exKvsHm exMsgs (.obj [("foo", .num 1)])
    (some "rid") rfl
    (by intro m hm; simp [exMsgs] at hm;
        rcases hm with rfl | rfl <;> rfl)).2.1 rfl

/-- C10: a JSON object body with no "messages" key, or with an empty messages
array, is accepted: the handler hands the body with the lone system message
to `conversation_internal`, and the provider is called on a message list
consisting of exactly the selected system prompt. -/
theorem empty_messages_accepted (cfg : Config) (ctx s : String)
    (kvs : List (String × Json))
    (hp : resolvePrompt ctx cfg = some s) (hs : s ≠ "")
    (hm : jLookup kvs "messages" = none ∨
      jLookup kvs "messages" = some (.arr [])) :
    (∀ upstream : Upstream,
      conversation upstream cfg ⟨true, .obj kvs⟩ ctx =
        .ok (conversation_internal upstream cfg
          (.obj (setKey kvs "messages" (.arr [systemMessage s])))))
    ∧ (∀ upstream : Upstream,
      send_chat_request upstream cfg
          (.obj (setKey kvs "messages" (.arr [systemMessage s]))) =
        upstream ⟨.arr [systemMessage s], cfg.temperature, cfg.max_tokens,
          cfg.top_p, cfg.stop_sequence, cfg.stream, cfg.model⟩) := by
  constructor
  · intro upstream
    rcases hm with h | h <;>
      simp [conversation, hp, promptFalsy, hs, pyGetD, h, pyInsert0,
            pySetItem, Except.bind, bind]
  · intro upstream
    have h := send_chat_request_eq upstream cfg
      (setKey kvs "messages" (.arr [systemMessage s])) [systemMessage s]
      (jLookup_setKey_self kvs _ _)
      (by intro m hm'; simp at hm'; subst hm'; rfl)
    simpa [List.filter_cons, isToolMessage_systemMessage] using h

/-- Witness for C10: an empty JSON object body under context "legal". -/
theorem empty_messages_accepted_witness :
    conversation stubUpstream cfgEx ⟨true, .obj []⟩ "legal" =
      .ok (conversation_internal stubUpstream cfgEx
        (.obj (setKey [] "messages" (.arr [systemMessage legalPrompt])))) :=
  (empty_messages_accepted cfgEx "legal" legalPrompt [] rfl (by decide)
    (Or.inl rfl)).1 stubUpstream

end AzureAI
